import Mathlib

/-!
# Verification of `warned_dataclasses`

Shallow embedding of `src/warned_dataclasses/__init__.py`.

The library attaches deferred conditional warnings to dataclass fields.
Python exceptions are modelled by the `PyError` type; raising is modelled
by `Except`/explicit error components.  The module-level mutable dictionary
`DEFERRED_WARNINGS` is modelled as an explicit insertion-ordered association
list (`Registry`) threaded through the functions that read or mutate it.
Messages emitted through `logger.warning` are modelled as a returned list of
logged strings.
-/

namespace WarnedDataclasses

/-- Python exceptions raised by the library.  The spec's error taxonomy maps
onto Python exception classes as follows: `UnknownConditionError` is the
`KeyError` raised by `satisfy`/`invoke`, `ConfigError` and
`PreconditionError` are the two `ValueError`s, `ConditionalParameterError`
is the library's own exception class, and `attributeError` is the
`AttributeError` Python raises when an attribute is read on `None`. -/
inductive PyError where
  | conditionalParameterError (msg : String)
  | preconditionError (msg : String)
  | unknownConditionError (msg : String)
  | configError (msg : String)
  | attributeError (msg : String)
  deriving Repr, DecidableEq

/-- Class `DeferredWarning`: one pending conditional check.
`deferredMessage` is the message-template closure passed to `__init__`;
`message` starts as `None` (`none`). -/
structure DeferredWarning where
  condition : String
  deferredMessage : String → String
  satisfied : Bool
  error : Bool
  message : Option String

/-- Constructor `DeferredWarning.__init__(condition, deferred_message, error=False)`:
sets `satisfied = False` and `message = None`.  (The stray
`print("initialized")` writes to stdout, not to the logging collaborator,
and is not modelled.) -/
def DeferredWarning.init (condition : String) (deferredMessage : String → String)
    (error : Bool) : DeferredWarning :=
  { condition := condition, deferredMessage := deferredMessage,
    satisfied := false, error := error, message := none }

/-- Method `DeferredWarning.satisfy(self)`: `self.satisfied = True`. -/
def DeferredWarning.satisfy (w : DeferredWarning) : DeferredWarning :=
  { w with satisfied := true }

/-- Method `DeferredWarning.supply_parameter(self, param)`:
`self.message = self.deferred_message(param)`. -/
def DeferredWarning.supply_parameter (w : DeferredWarning) (param : String) :
    DeferredWarning :=
  { w with message := some (w.deferredMessage param) }

/-- Method `DeferredWarning.invoke(self)`: if not satisfied, raise `ValueError`
when the message was never supplied, raise `ConditionalParameterError` in
error mode, otherwise log the message at warning severity.  The result is
the list of messages logged (empty or a singleton) or the exception. -/
def DeferredWarning.invoke (w : DeferredWarning) : Except PyError (List String) :=
  if !w.satisfied then
    match w.message with
    | none => Except.error (PyError.preconditionError "didn't supply parameter!")
    | some m =>
      if w.error then Except.error (PyError.conditionalParameterError m)
      else Except.ok [m]
  else Except.ok []

/-- The global `DEFERRED_WARNINGS: Dict[str, List[DeferredWarning]]` — a
`defaultdict(list)` keyed by condition name.  Python dictionaries preserve
insertion order, so the dictionary is modelled as an association list in
key-insertion order; each value list is in warning-registration order. -/
abbrev Registry := List (String × List DeferredWarning)

/-- Dictionary lookup: `DEFERRED_WARNINGS[key]` for a present key
(`key in DEFERRED_WARNINGS` is `(find key).isSome`). -/
def Registry.find : Registry → String → Option (List DeferredWarning)
  | [], _ => none
  | (k, ws) :: rest, key => if k = key then some ws else Registry.find rest key

/-- Append step `DEFERRED_WARNINGS[condition].append(warning)` on the `defaultdict`:
appends to the list at the key, inserting a fresh key (at the end of the
iteration order) when absent. -/
def Registry.register : Registry → String → DeferredWarning → Registry
  | [], key, w => [(key, [w])]
  | (k, ws) :: rest, key, w =>
    if k = key then (k, ws ++ [w]) :: rest
    else (k, ws) :: Registry.register rest key w

/-- In-place `satisfy()` of every warning stored under `key` (the loop body
of the module-level `satisfy`). -/
def Registry.satisfyAll : Registry → String → Registry
  | [], _ => []
  | (k, ws) :: rest, key =>
    if k = key then (k, ws.map DeferredWarning.satisfy) :: Registry.satisfyAll rest key
    else (k, ws) :: Registry.satisfyAll rest key

/-- Module-level `satisfy(key)`: raises `KeyError` when the key was never
declared, otherwise calls `satisfy()` on every warning under the key. -/
def satisfy (registry : Registry) (key : String) : Except PyError Registry :=
  if (registry.find key).isSome then
    Except.ok (registry.satisfyAll key)
  else
    Except.error (PyError.unknownConditionError
      ("Condition \"" ++ key ++ "\" has not been declared and could not be disarmed."))

/-- The `for` loop of the module-level `invoke`: invokes each warning in
registration order, accumulating logged messages, aborting at the first
exception. -/
def invokeList : List DeferredWarning → Except PyError (List String)
  | [] => Except.ok []
  | w :: ws =>
    match w.invoke with
    | Except.error e => Except.error e
    | Except.ok logs =>
      match invokeList ws with
      | Except.error e => Except.error e
      | Except.ok rest => Except.ok (logs ++ rest)

/-- Module-level `invoke(key)`: raises `KeyError` when the key was never
declared, otherwise invokes every warning under the key in registration
order.  Invocation reads warning state but never mutates it, so no updated
registry is returned. -/
def invoke (registry : Registry) (key : String) : Except PyError (List String) :=
  match registry.find key with
  | none => Except.error (PyError.unknownConditionError
      ("Condition \"" ++ key ++ "\" has not been declared and could not be invoked"))
  | some ws => invokeList ws

/-- Class `WarnedField(Field)`: the native field specification extended with
the `_deferred_warning` slot.  The native slots that `field(...)` forwards
(`default`, `default_factory`, `init`, `repr`, `hash`, `compare`,
`metadata`) are carried verbatim; runtime Python values (defaults, metadata)
are opaque to the library, so they are a type parameter `α`, with the
`MISSING` sentinel modelled as `none`.  `name` is the slot the native
construction step fills in with the field's declared name (it starts unset,
modelled as `""`). -/
structure WarnedField (α : Type) where
  deferredWarning : Option DeferredWarning
  default : Option α
  default_factory : Option α
  init : Bool
  repr : Bool
  hash : Option Bool
  compare : Bool
  metadata : Option α
  name : String

/-- Factory `field(*, condition=None, error_on_invoke=False, default=MISSING,
default_factory=MISSING, init=True, repr=True, hash=None, compare=True,
metadata=None)`: builds the optional `DeferredWarning` (with the message
template closing over `condition`), raises `ValueError` when both `default`
and `default_factory` are given, and otherwise returns the `WarnedField`. -/
def field (condition : Option String) (error_on_invoke : Bool)
    (default : Option α) (default_factory : Option α) (init : Bool)
    (repr : Bool) (hash : Option Bool) (compare : Bool) (metadata : Option α) :
    Except PyError (WarnedField α) :=
  let deferred_warning : Option DeferredWarning :=
    match condition with
    | some c =>
      some (DeferredWarning.init c
        (fun parameter =>
          "Value provided for --" ++ parameter ++
            " but required condition \"" ++ c ++ "\" not met.")
        error_on_invoke)
    | none => none
  if default.isSome && default_factory.isSome then
    Except.error (PyError.configError "cannot specify both default and default_factory")
  else
    Except.ok
      { deferredWarning := deferred_warning, default := default,
        default_factory := default_factory, init := init, repr := repr,
        hash := hash, compare := compare, metadata := metadata, name := "" }

/-- A record-type definition as the library sees it: the class body's
field specifications in declaration order, each under its declared
attribute name. -/
structure RecordClass (α : Type) where
  fields : List (String × WarnedField α)

/-- Modelled from the spec: `dataclasses._process_class` and the `_FIELDS`
table are the native record-construction collaborator, outside this
repository.  Per the spec it finalizes the class and exposes the
authoritative field table as an ordered sequence of field specifications
whose `name` slots hold the fields' final names; the six dunder-generation
flags do not affect the field table. -/
def process_class (cls : RecordClass α) (_init _repr _eq _order _unsafe_hash
    _frozen : Bool) : List (WarnedField α) :=
  cls.fields.map (fun p => { p.2 with name := p.1 })

/-- The `for` loop of `_warned_process_class`: for each field of the
finalized table, reads `field._deferred_warning` and, with no null check,
calls `supply_parameter(field.name)` on it and appends it to
`DEFERRED_WARNINGS[warning.condition]`.  When the slot holds `None` the
attribute access on `None` raises `AttributeError`; appends made for
earlier fields persist in the global registry. -/
def registerFields : List (WarnedField α) → Registry → Registry × Option PyError
  | [], registry => (registry, none)
  | f :: rest, registry =>
    match f.deferredWarning with
    | none =>
      (registry, some (PyError.attributeError
        "NoneType object has no attribute supply_parameter"))
    | some w =>
      let w' := w.supply_parameter f.name
      registerFields rest (registry.register w'.condition w')

/-- Function `_warned_process_class(cls, init, repr, eq, order, unsafe_hash,
frozen)`: runs the native `_process_class`, then the registration loop.
The Python function body has no `return` statement, so on normal completion
it returns `None` (`Except.ok none`); an exception from the loop propagates
(`Except.error`).  The first component is the registry state after the
call, including appends made before an exception. -/
def warned_process_class (cls : RecordClass α) (init repr eq order unsafe_hash
    frozen : Bool) (registry : Registry) :
    Registry × Except PyError (Option (RecordClass α)) :=
  let fields := process_class cls init repr eq order unsafe_hash frozen
  match registerFields fields registry with
  | (registry', some e) => (registry', Except.error e)
  | (registry', none) => (registry', Except.ok none)

/-- Decorator `dataclass(cls, *, init=True, repr=True, eq=True, order=False,
unsafe_hash=False, frozen=False)` applied to a class (either directly or
through the returned `wrap`): both calling conventions end in
`wrap(cls) = _warned_process_class(cls, ...)`, whose result is the
decorator's result. -/
def dataclass (cls : RecordClass α) (init repr eq order unsafe_hash
    frozen : Bool) (registry : Registry) :
    Registry × Except PyError (Option (RecordClass α)) :=
  warned_process_class cls init repr eq order unsafe_hash frozen registry

/-! ## Helper lemmas -/

theorem DeferredWarning.satisfy_satisfy (w : DeferredWarning) :
    w.satisfy.satisfy = w.satisfy := rfl

theorem DeferredWarning.invoke_satisfy (w : DeferredWarning) :
    w.satisfy.invoke = Except.ok [] := rfl

theorem DeferredWarning.satisfy_comp :
    DeferredWarning.satisfy ∘ DeferredWarning.satisfy = DeferredWarning.satisfy :=
  funext fun _ => rfl

theorem Registry.find_satisfyAll_self (r : Registry) (c : String) :
    (r.satisfyAll c).find c = (r.find c).map (List.map DeferredWarning.satisfy) := by
  induction r with
  | nil => rfl
  | cons p rest ih =>
    obtain ⟨k, ws⟩ := p
    by_cases hk : k = c <;>
      simp [Registry.satisfyAll, Registry.find, hk, ih]

theorem Registry.satisfyAll_idem (r : Registry) (c : String) :
    (r.satisfyAll c).satisfyAll c = r.satisfyAll c := by
  induction r with
  | nil => rfl
  | cons p rest ih =>
    obtain ⟨k, ws⟩ := p
    by_cases hk : k = c <;>
      simp [Registry.satisfyAll, hk, ih, List.map_map, DeferredWarning.satisfy_comp]

theorem invokeList_map_satisfy (ws : List DeferredWarning) :
    invokeList (ws.map DeferredWarning.satisfy) = Except.ok [] := by
  induction ws with
  | nil => rfl
  | cons w rest ih =>
    simp [invokeList, DeferredWarning.invoke_satisfy, ih]

/-! ## Claims -/

/-- C4: for every declared condition `c`, a second `satisfy c` returns the
registry unchanged (every warning is left in the same state as after one
call), and `invoke c` on the satisfied registry returns without an
exception and with no logged message; `invoke` never mutates warning state,
so this holds for any number of subsequent `invoke` calls. -/
theorem satisfy_idempotent_invoke_noop (r r' : Registry) (c : String)
    (h : satisfy r c = Except.ok r') :
    satisfy r' c = Except.ok r' ∧ invoke r' c = Except.ok [] := by
  unfold satisfy at h
  split_ifs at h with hc
  · obtain ⟨ws, hws⟩ := Option.isSome_iff_exists.mp hc
    injection h with h
    subst h
    have hfind := Registry.find_satisfyAll_self r c
    rw [hws] at hfind
    constructor
    · unfold satisfy
      rw [hfind]
      simp [Registry.satisfyAll_idem]
    · unfold invoke
      rw [hfind]
      exact invokeList_map_satisfy ws

/-- Witness registry for C4: one declared condition `"x"` holding one
unsatisfied error-mode warning. -/
def c4reg : Registry :=
  [("x", [{ condition := "x", deferredMessage := fun p => p,
            satisfied := false, error := true, message := some "boom" }])]

/-- C4 witness at `c4reg`. -/
theorem satisfy_idempotent_invoke_noop_witness :
    satisfy (c4reg.satisfyAll "x") "x" = Except.ok (c4reg.satisfyAll "x") ∧
    invoke (c4reg.satisfyAll "x") "x" = Except.ok [] :=
  satisfy_idempotent_invoke_noop c4reg (c4reg.satisfyAll "x") "x" rfl

/-- C5: `satisfy` and `invoke` on a key under which no warning was ever
registered both raise the undeclared-condition `KeyError`. -/
theorem undeclared_key_errors (r : Registry) (key : String)
    (h : r.find key = none) :
    satisfy r key = Except.error (PyError.unknownConditionError
      ("Condition \"" ++ key ++ "\" has not been declared and could not be disarmed.")) ∧
    invoke r key = Except.error (PyError.unknownConditionError
      ("Condition \"" ++ key ++ "\" has not been declared and could not be invoked")) := by
  unfold satisfy invoke
  rw [h]
  simp

/-- C5 witness: the empty registry and the key `"nonexistent"`. -/
theorem undeclared_key_errors_witness :
    satisfy [] "nonexistent" = Except.error (PyError.unknownConditionError
      "Condition \"nonexistent\" has not been declared and could not be disarmed.") ∧
    invoke [] "nonexistent" = Except.error (PyError.unknownConditionError
      "Condition \"nonexistent\" has not been declared and could not be invoked") :=
  undeclared_key_errors [] "nonexistent" rfl

/-- C6: `invoke()` on a warning that is not satisfied and whose message was
never supplied raises the precondition `ValueError`. -/
theorem invoke_unarmed_raises (w : DeferredWarning)
    (hsat : w.satisfied = false) (hmsg : w.message = none) :
    w.invoke = Except.error (PyError.preconditionError "didn't supply parameter!") := by
  unfold DeferredWarning.invoke
  rw [hsat, hmsg]
  rfl

/-- Witness warning for C6: freshly constructed, never armed. -/
def c6warning : DeferredWarning :=
  DeferredWarning.init "cond" (fun p => p) false

/-- C6 witness at `c6warning`. -/
theorem invoke_unarmed_raises_witness :
    c6warning.satisfied = false ∧ c6warning.message = none ∧
    c6warning.invoke = Except.error (PyError.preconditionError "didn't supply parameter!") :=
  ⟨rfl, rfl, invoke_unarmed_raises c6warning rfl rfl⟩

theorem invokeList_append_error (ws₁ ws₂ : List DeferredWarning)
    (w : DeferredWarning) (e : PyError)
    (h1 : ∀ w' ∈ ws₁, ∃ logs, w'.invoke = Except.ok logs)
    (hw : w.invoke = Except.error e) :
    invokeList (ws₁ ++ w :: ws₂) = Except.error e := by
  induction ws₁ with
  | nil => simp [invokeList, hw]
  | cons a rest ih =>
    obtain ⟨logs, hl⟩ := h1 a (List.mem_cons_self a rest)
    have hrest := ih (fun w' hm => h1 w' (List.mem_cons_of_mem a hm))
    simp [invokeList, hl, hrest]

/-- C3: when the list registered under a declared condition `c` consists of
warnings that invoke cleanly, followed by an unsatisfied armed error-mode
warning `w`, followed by anything, `invoke c` raises `w`'s
`ConditionalParameterError`; the warnings after `w` are never evaluated
(the result does not depend on `ws₂`). -/
theorem invoke_propagates_first_error (r : Registry) (c : String)
    (ws₁ ws₂ : List DeferredWarning) (w : DeferredWarning) (m : String)
    (hfind : r.find c = some (ws₁ ++ w :: ws₂))
    (h1 : ∀ w' ∈ ws₁, ∃ logs, w'.invoke = Except.ok logs)
    (hsat : w.satisfied = false) (herr : w.error = true)
    (hmsg : w.message = some m) :
    invoke r c = Except.error (PyError.conditionalParameterError m) := by
  have hw : w.invoke = Except.error (PyError.conditionalParameterError m) := by
    simp [DeferredWarning.invoke, hsat, hmsg, herr]
  unfold invoke
  rw [hfind]
  exact invokeList_append_error ws₁ ws₂ w _ h1 hw

/-- C3 witness warning: log-mode, unsatisfied, armed. -/
def c3logWarning : DeferredWarning :=
  { condition := "x", deferredMessage := fun p => p, satisfied := false,
    error := false, message := some "a-log" }

/-- C3 witness warning: error-mode, unsatisfied, armed. -/
def c3errWarning : DeferredWarning :=
  { condition := "x", deferredMessage := fun p => p, satisfied := false,
    error := true, message := some "b-err" }

/-- C3 witness warning: a later error-mode warning that must not be
evaluated. -/
def c3tailWarning : DeferredWarning :=
  { condition := "x", deferredMessage := fun p => p, satisfied := false,
    error := true, message := some "c-err" }

/-- C3 witness registry: three warnings registered under `"x"`, in order. -/
def c3reg : Registry := [("x", [c3logWarning, c3errWarning, c3tailWarning])]

/-- C3 witness at `c3reg`: `invoke "x"` raises the first error-mode
warning's exception. -/
theorem invoke_propagates_first_error_witness :
    c3reg.find "x" = some ([c3logWarning] ++ c3errWarning :: [c3tailWarning]) ∧
    c3errWarning.satisfied = false ∧ c3errWarning.error = true ∧
    c3errWarning.message = some "b-err" ∧
    invoke c3reg "x" = Except.error (PyError.conditionalParameterError "b-err") :=
  ⟨rfl, rfl, rfl, rfl,
    invoke_propagates_first_error c3reg "x" [c3logWarning] [c3tailWarning]
      c3errWarning "b-err" rfl
      (fun w' hw' => ⟨["a-log"], by
        rw [List.mem_singleton] at hw'
        subst hw'
        rfl⟩)
      rfl rfl rfl⟩

/-- C7: for the `DeferredWarning` built by `field(condition=c, ...)`,
`supply_parameter n` stores the declared template applied to `n`: a string
that contains `--` immediately followed by `n` and that contains `c`. -/
theorem field_message_template (α : Type) (c n : String) (b : Bool)
    (wf : WarnedField α) (w : DeferredWarning)
    (hf : field (some c) b none none true true none true none = Except.ok wf)
    (hw : wf.deferredWarning = some w) :
    (w.supply_parameter n).message =
      some ("Value provided for --" ++ n ++
        " but required condition \"" ++ c ++ "\" not met.") ∧
    (∃ p s, (w.supply_parameter n).message = some (p ++ ("--" ++ n) ++ s)) ∧
    (∃ p s, (w.supply_parameter n).message = some (p ++ c ++ s)) := by
  simp [field] at hf
  subst hf
  simp at hw
  subst hw
  refine ⟨rfl,
    ⟨"Value provided for ",
      " but required condition \"" ++ c ++ "\" not met.", ?_⟩,
    ⟨"Value provided for --" ++ n ++ " but required condition \"",
      "\" not met.", rfl⟩⟩
  show some ("Value provided for --" ++ n ++
      " but required condition \"" ++ c ++ "\" not met.") =
    some ("Value provided for " ++ ("--" ++ n) ++
      (" but required condition \"" ++ c ++ "\" not met."))
  rw [← String.append_assoc "Value provided for " "--" n]
  simp [String.append_assoc]

/-- C7 witness field: `field(condition="distributed", error_on_invoke=True)`. -/
def c7field : WarnedField Unit :=
  { deferredWarning := some (DeferredWarning.init "distributed"
      (fun parameter =>
        "Value provided for --" ++ parameter ++
          " but required condition \"" ++ "distributed" ++ "\" not met.")
      true),
    default := none, default_factory := none, init := true, repr := true,
    hash := none, compare := true, metadata := none, name := "" }

/-- C7 witness warning: the warning carried by `c7field`. -/
def c7warning : DeferredWarning :=
  c7field.deferredWarning.getD (DeferredWarning.init "" (fun _ => "") false)

/-- C7 witness: supplying the field name `retries` yields the expected
message. -/
theorem field_message_template_witness :
    (c7warning.supply_parameter "retries").message =
      some "Value provided for --retries but required condition \"distributed\" not met." :=
  (field_message_template Unit "distributed" "retries" true c7field c7warning
    rfl rfl).1

/-- C8: `field(...)` raises the configuration `ValueError` exactly when both
`default` and `default_factory` are supplied; with at most one of them it
returns a field specification without raising. -/
theorem field_defaults_exclusive (α : Type) (cond : Option String) (b : Bool)
    (d df : Option α) (i rp : Bool) (hs : Option Bool) (cmp : Bool)
    (md : Option α) :
    ((d.isSome && df.isSome) = true →
      field cond b d df i rp hs cmp md =
        Except.error (PyError.configError
          "cannot specify both default and default_factory")) ∧
    ((d.isSome && df.isSome) = false →
      ∃ wf, field cond b d df i rp hs cmp md = Except.ok wf) := by
  constructor
  · intro hd
    simp [field, hd]
  · intro hd
    simp [field, hd]

/-- C8 witness: both defaults supplied raises; only `default` supplied
returns a field specification. -/
theorem field_defaults_exclusive_witness :
    field none false (some ()) (some ()) true true none true none =
      Except.error (PyError.configError
        "cannot specify both default and default_factory") ∧
    (field none false (some ()) none true true none true none).isOk = true := by
  constructor
  · exact (field_defaults_exclusive Unit none false (some ()) (some ())
      true true none true none).1 rfl
  · obtain ⟨wf, hwf⟩ := (field_defaults_exclusive Unit none false (some ()) none
      true true none true none).2 rfl
    rw [hwf]
    rfl

theorem Registry.find_register (r : Registry) (key k : String)
    (w : DeferredWarning) :
    (r.register key w).find k =
      if k = key then some (((r.find k).getD []) ++ [w]) else r.find k := by
  induction r with
  | nil =>
    by_cases hk : k = key
    · subst hk
      simp [Registry.register, Registry.find]
    · simp [Registry.register, Registry.find, hk, Ne.symm hk]
  | cons p rest ih =>
    obtain ⟨k₀, ws₀⟩ := p
    by_cases h0 : k₀ = key
    · subst h0
      by_cases hk : k₀ = k
      · subst hk
        simp [Registry.register, Registry.find]
      · simp [Registry.register, Registry.find, hk, Ne.symm hk]
    · by_cases hk : k₀ = k
      · subst hk
        simp [Registry.register, Registry.find, h0, Ne.symm h0]
      · simp [Registry.register, Registry.find, h0, hk, ih]

theorem registerFields_mem_source (α : Type) (fs : List (WarnedField α)) :
    ∀ (r : Registry) (k : String) (ws : List DeferredWarning)
      (w : DeferredWarning),
      ((registerFields fs r).1).find k = some ws → w ∈ ws →
      (∃ ws₀, r.find k = some ws₀ ∧ w ∈ ws₀) ∨
      ∃ f ∈ fs, ∃ w₀, f.deferredWarning = some w₀ ∧
        w = w₀.supply_parameter f.name := by
  induction fs with
  | nil =>
    intro r k ws w hws hw
    exact Or.inl ⟨ws, hws, hw⟩
  | cons f rest ih =>
    intro r k ws w hws hw
    cases hfw : f.deferredWarning with
    | none =>
      rw [show (registerFields (f :: rest) r).1 = r by
        simp [registerFields, hfw]] at hws
      exact Or.inl ⟨ws, hws, hw⟩
    | some w₀ =>
      have hws' : ((registerFields rest
          (r.register (w₀.supply_parameter f.name).condition
            (w₀.supply_parameter f.name))).1).find k = some ws := by
        rw [show registerFields (f :: rest) r = registerFields rest
            (r.register (w₀.supply_parameter f.name).condition
              (w₀.supply_parameter f.name)) by
          simp [registerFields, hfw]] at hws
        exact hws
      rcases ih _ k ws w hws' hw with hin | hsrc
      · obtain ⟨ws₁, hfind, hmem⟩ := hin
        rw [Registry.find_register] at hfind
        by_cases hk : k = (w₀.supply_parameter f.name).condition
        · rw [if_pos hk] at hfind
          injection hfind with hfind
          subst hfind
          rcases List.mem_append.mp hmem with hml | hmr
          · cases hrf : r.find k with
            | none =>
              rw [hrf] at hml
              exact absurd hml (List.not_mem_nil w)
            | some l =>
              rw [hrf] at hml
              exact Or.inl ⟨l, rfl, hml⟩
          · rw [List.mem_singleton] at hmr
            subst hmr
            exact Or.inr ⟨f, List.mem_cons_self f rest, w₀, hfw, rfl⟩
        · rw [if_neg hk] at hfind
          exact Or.inl ⟨ws₁, hfind, hmem⟩
      · obtain ⟨g, hg, w₁, hw₁, hweq⟩ := hsrc
        exact Or.inr ⟨g, List.mem_cons_of_mem f hg, w₁, hw₁, hweq⟩

theorem registerFields_error_of_none (α : Type) (fs : List (WarnedField α)) :
    ∀ r : Registry, (∃ f ∈ fs, f.deferredWarning = none) →
      (registerFields fs r).2 = some (PyError.attributeError
        "NoneType object has no attribute supply_parameter") := by
  induction fs with
  | nil =>
    intro r h
    obtain ⟨f, hf, _⟩ := h
    exact absurd hf (List.not_mem_nil f)
  | cons f rest ih =>
    intro r h
    cases hfw : f.deferredWarning with
    | none => simp [registerFields, hfw]
    | some w =>
      obtain ⟨g, hg, hgw⟩ := h
      rcases List.mem_cons.mp hg with hgf | hgr
      · subst hgf
        rw [hfw] at hgw
        exact absurd hgw (by simp)
      · rw [show registerFields (f :: rest) r = registerFields rest
            (r.register (w.supply_parameter f.name).condition
              (w.supply_parameter f.name)) by
          simp [registerFields, hfw]]
        exact ih _ ⟨g, hgr, hgw⟩

/-- C9: applying the decorator to a record type one of whose fields carries
no `DeferredWarning` raises `AttributeError` inside the registration hook
(the hook reads `_deferred_warning` and calls `supply_parameter` on it with
no null check) instead of skipping that field. -/
theorem dataclass_raises_on_unwarned_field (α : Type) (cls : RecordClass α)
    (i rp e o uh fr : Bool) (registry : Registry)
    (h : ∃ p ∈ cls.fields, (p.2).deferredWarning = none) :
    (dataclass cls i rp e o uh fr registry).2 =
      Except.error (PyError.attributeError
        "NoneType object has no attribute supply_parameter") := by
  have hmem : ∃ f ∈ process_class cls i rp e o uh fr,
      f.deferredWarning = none := by
    obtain ⟨p, hp, hpw⟩ := h
    exact ⟨{ p.2 with name := p.1 }, List.mem_map.mpr ⟨p, hp, rfl⟩, hpw⟩
  have herr := registerFields_error_of_none α
    (process_class cls i rp e o uh fr) registry hmem
  unfold dataclass warned_process_class
  rcases hres : registerFields (process_class cls i rp e o uh fr) registry
    with ⟨r', oe⟩
  rw [hres] at herr
  simp only at herr
  subst herr
  simp [hres]

/-- The field specification returned by `field()` with no `condition`:
its `_deferred_warning` slot is `None`. -/
def conditionlessField : WarnedField Unit :=
  { deferredWarning := none, default := none, default_factory := none,
    init := true, repr := true, hash := none, compare := true,
    metadata := none, name := "" }

/-- C9 witness: a record type with single field `plain` declared without a
condition crashes the decorator. -/
theorem dataclass_raises_on_unwarned_field_witness :
    (dataclass (RecordClass.mk [("plain", conditionlessField)])
        true true true false false false []).2 =
      Except.error (PyError.attributeError
        "NoneType object has no attribute supply_parameter") :=
  dataclass_raises_on_unwarned_field Unit
    (RecordClass.mk [("plain", conditionlessField)])
    true true true false false false []
    ⟨("plain", conditionlessField), List.mem_singleton.mpr rfl, rfl⟩

/-- C10: `field()` without a condition attaches no `DeferredWarning` and
its result does not depend on `error_on_invoke`; every warning present in
the registry after the registration loop either was there before or is the
armed warning of a field whose `_deferred_warning` slot was non-null, so a
conditionless field never contributes a registry entry (and hence no log or
`ConditionalParameterError` at invoke time, which only ever fire from
registered warnings). -/
theorem field_without_condition (α : Type) (b₁ b₂ : Bool) (d df : Option α)
    (i rp : Bool) (hs : Option Bool) (cmp : Bool) (md : Option α) :
    field none b₁ d df i rp hs cmp md = field none b₂ d df i rp hs cmp md ∧
    (∀ wf, field none b₁ d df i rp hs cmp md = Except.ok wf →
      wf.deferredWarning = none) ∧
    (∀ (fs : List (WarnedField α)) (r : Registry) (k : String)
        (ws : List DeferredWarning) (w : DeferredWarning),
      ((registerFields fs r).1).find k = some ws → w ∈ ws →
      (∃ ws₀, r.find k = some ws₀ ∧ w ∈ ws₀) ∨
      ∃ f ∈ fs, ∃ w₀, f.deferredWarning = some w₀ ∧
        w = w₀.supply_parameter f.name) := by
  refine ⟨rfl, ?_, ?_⟩
  · intro wf hwf
    by_cases hd : (d.isSome && df.isSome) = true
    · simp [field, hd] at hwf
    · rw [eq_comm] at hwf
      simp [field, hd] at hwf
      rw [hwf]
  · intro fs r k ws w hws hw
    exact registerFields_mem_source α fs r k ws w hws hw

/-- C10 witness: the two `error_on_invoke` values give the same
specification, and its warning slot is null. -/
theorem field_without_condition_witness :
    field none true (none : Option Unit) none true true none true none =
      field none false (none : Option Unit) none true true none true none ∧
    conditionlessField.deferredWarning = none :=
  ⟨(field_without_condition Unit true false none none true true none true none).1,
   (field_without_condition Unit true false none none true true none true none).2.1
     conditionlessField rfl⟩

/-- The field specification returned by
`field(condition="distributed", error_on_invoke=True)`. -/
def retriesField : WarnedField Unit :=
  { deferredWarning := some (DeferredWarning.init "distributed"
      (fun parameter =>
        "Value provided for --" ++ parameter ++
          " but required condition \"" ++ "distributed" ++ "\" not met.")
      true),
    default := none, default_factory := none, init := true, repr := true,
    hash := none, compare := true, metadata := none, name := "" }

/-- C1 (code bug): `_warned_process_class` has no `return` statement, so
the decorator returns `None` instead of the processed class, contradicting
its own docstring ("Returns the same class as was passed in").  Evaluated
at a record type `Job` with one field `retries` declared via
`field(condition="distributed", error_on_invoke=True)`: the decorator's
value is `None`. -/
theorem dataclass_returns_none :
    field (some "distributed") true none none true true none true none =
      Except.ok retriesField ∧
    (dataclass (RecordClass.mk [("retries", retriesField)])
        true true true false false false []).2 = Except.ok none :=
  ⟨rfl, rfl⟩

/-- C2 (code bug): the registration hook does not skip a field whose
`_deferred_warning` slot is `None`; evaluated at a record type with the
single conditionless field `plain` (built by `field()` with no
`condition`), the decorator raises `AttributeError` and registers
nothing. -/
theorem hook_crashes_on_conditionless_field :
    field none false none none true true none true none =
      Except.ok conditionlessField ∧
    dataclass (RecordClass.mk [("plain", conditionlessField)])
        true true true false false false [] =
      ([], Except.error (PyError.attributeError
        "NoneType object has no attribute supply_parameter")) :=
  ⟨rfl, rfl⟩

end WarnedDataclasses
